import Mathlib

/-!
Verification of `src/tvb/adapters/analyzers/bct_adapters.py` (tvb-framework).

The file under verification is an adapter layer between the TVB framework and
the Brain Connectivity Toolbox (BCT): each adapter class declares a literal
MATLAB snippet, binds the input connectivity's weight matrix to a snippet
variable, runs the snippet through an external MATLAB/Octave worker, and wraps
the named results into `ConnectivityMeasure` and `ValueWrapper` objects.

The shallow embedding below follows the Python source line by line:
  - engine values (numeric scalars and arrays) are `MatVal`,
  - Python dicts keyed by strings are association lists (`Dict`) with
    first-match lookup and in-place update,
  - the external MATLAB worker is an oracle function `Engine` from calls to
    replies; every interaction with it is recorded in a trace of
    `EngineAction`s so that claims about what is sent (and how often) are
    statements about the trace,
  - Python exceptions (`KeyError` from `result[key]`, `TypeError` from
    `float(...)` / `int(...)` on a non-convertible value) are `Except BctError`,
  - each adapter's `launch` returns a `LaunchResult` bundling the action trace,
    the connectivity object as it stands after the call (for frame claims),
    and the produced outputs.
-/

set_option autoImplicit false

namespace Bct

/-- A value exchanged with the MATLAB engine: a numeric scalar or a numeric
array (matrices are lists of rows). Rationals stand in for the numeric
payloads; no arithmetic is performed on them by the adapter code. -/
inductive MatVal where
  | num (q : ℚ)
  | arr (a : List (List ℚ))
  deriving DecidableEq

/-- A Python dict keyed by strings, as an association list. -/
abbrev Dict := List (String × MatVal)

/-- Python `d[k]` read: first binding of `k`, if any. -/
def dictLookup : Dict → String → Option MatVal
  | [], _ => none
  | (k0, v) :: rest, k => if k0 = k then some v else dictLookup rest k

/-- Python `d[k] = v`: replace the binding of `k` if present, else append. -/
def dictInsert : Dict → String → MatVal → Dict
  | [], k, v => [(k, v)]
  | (k0, v0) :: rest, k, v =>
      if k0 = k then (k0, v) :: rest else (k0, v0) :: dictInsert rest k v

/-- Python `float(x)` on an engine value: a numeric scalar converts to itself,
a size-one array converts to its sole element, and any other array raises
`TypeError` (modelled as `none`). -/
def pyFloat : MatVal → Option ℚ
  | .num q => some q
  | .arr a =>
      match a.flatten with
      | [q] => some q
      | _ => none

/-- Truncation toward zero, the behaviour of Python `int()` on a float. -/
def ratTrunc (q : ℚ) : ℤ := q.num.tdiv (q.den : ℤ)

/-- Python `int(x)` on an engine value: numeric scalars and size-one arrays
convert (truncating toward zero); other arrays raise (modelled as `none`). -/
def pyInt : MatVal → Option ℤ
  | .num q => some (ratTrunc q)
  | .arr a =>
      match a.flatten with
      | [q] => some (ratTrunc q)
      | _ => none

/-- The input datatype (`tvb.datatypes.connectivity.Connectivity`), restricted
to the fields this adapter file touches: the weight matrix read by every
`launch`, and the `_undirected` metadata flag read by the schema filter of
`BaseUndirected.get_input_tree`. -/
structure Connectivity where
  weights : List (List ℚ)
  undirected : Bool
  deriving DecidableEq

/-- Output datatype `ConnectivityMeasure`, with the fields assigned by
`BaseBCT.build_connectivity_measure`. -/
structure ConnectivityMeasure where
  storage_path : String
  array_data : MatVal
  connectivity : Connectivity
  title : String
  label_x : String
  label_y : String
  deriving DecidableEq

/-- A Python numeric value stored in a `ValueWrapper`: the result of `float()`
or of `int()`. -/
inductive PyNum where
  | pfloat (q : ℚ)
  | pint (z : ℤ)
  deriving DecidableEq

/-- Output datatype `ValueWrapper`, with the fields assigned by
`BaseBCT.build_float_value_wrapper` / `build_int_value_wrapper`. -/
structure ValueWrapper where
  storage_path : String
  data_value : PyNum
  data_type : String
  data_name : String
  deriving DecidableEq

/-- The Python exceptions the adapter body can raise: `KeyError` from
`result[key]` on a missing key, `TypeError` from `float(..)`/`int(..)` on a
value that is not convertible. -/
inductive BctError where
  | keyError (key : String)
  | typeError (key : String)
  deriving DecidableEq

/-- One element of the heterogeneous result list returned by `launch`. -/
inductive Output where
  | measure (m : ConnectivityMeasure)
  | value (v : ValueWrapper)
  deriving DecidableEq

/-- The kind of an output, for shape claims. -/
inductive OutputKind where
  | measure
  | scalar
  deriving DecidableEq

def Output.kind : Output → OutputKind
  | .measure _ => .measure
  | .value _ => .scalar

/-- A call submitted to the MATLAB worker: the literal snippet and the named
parameters (`MatlabWorker.matlab(matlab_code, kwargs)`). -/
structure EngineCall where
  code : String
  params : Dict
  deriving DecidableEq

/-- The triple the MATLAB worker returns,
`runcode, matlablog, result = self.matlab_worker.matlab(...)`. -/
structure EngineReply where
  runcode : ℤ
  matlablog : String
  result : Dict
  deriving DecidableEq

/-- An interaction with the MATLAB worker, recorded in the trace:
`add_to_path` or a snippet run. -/
inductive EngineAction where
  | addToPath (p : String)
  | run (c : EngineCall)
  deriving DecidableEq

/-- The external engine as an oracle: what reply the worker would produce for
a given call. -/
abbrev Engine := EngineCall → EngineReply

/-- An engine that answers every call with status 0, empty log and the given
result mapping (the quantification form used by claims that range over
"every engine result mapping"). -/
def constEngine (res : Dict) : Engine := fun _ => ⟨0, "", res⟩

/-- Modelled from the spec: `MatlabWorker.matlab` lives in
`src/tvb/adapters/analyzers/matlab_worker.py`, which is not under `src/`.
Per spec section 6 the worker's interface is
`run(code, parameters) -> (status_code, log, results)`: it returns the status
triple (it does not raise on a failed run), matching the triple unpacking on
line 96 of the source. The oracle supplies the triple. -/
def matlabWorkerMatlab (engine : Engine) (code : String) (data : Dict) : EngineReply :=
  engine ⟨code, data⟩

/-- `BaseBCT.execute_matlab` (source lines 93-100): add the BCT folder to the
worker's path, run the code, and return `result`. The source logs `runcode`
and `matlablog` through `self.log.debug` — writes to the adapter's logger that
produce no value and reach no caller — and returns only `result`, without
inspecting `runcode`. The returned pair is (action trace, result mapping). -/
def execute_matlab (bctPath : String) (engine : Engine) (matlabCode : String)
    (kwargs : Dict) : List EngineAction × Dict :=
  let reply := matlabWorkerMatlab engine matlabCode kwargs
  ([.addToPath bctPath, .run ⟨matlabCode, kwargs⟩], reply.result)

/-- `BaseBCT.build_connectivity_measure` (source lines 103-110): wraps
`result[key]` — raising `KeyError` if absent — into a `ConnectivityMeasure`
with the given title and axis labels. -/
def build_connectivity_measure (storagePath : String) (result : Dict) (key : String)
    (connectivity : Connectivity) (title : String) (labelX : String) (labelY : String) :
    Except BctError ConnectivityMeasure :=
  match dictLookup result key with
  | none => .error (.keyError key)
  | some v => .ok ⟨storagePath, v, connectivity, title, labelX, labelY⟩

/-- `BaseBCT.build_float_value_wrapper` (source lines 113-118): stores
`float(result[key])` with declared type `'float'`; `result[key]` raises
`KeyError` on a missing key and `float(...)` raises `TypeError` on a
non-convertible value. -/
def build_float_value_wrapper (storagePath : String) (result : Dict) (key : String)
    (title : String) : Except BctError ValueWrapper :=
  match dictLookup result key with
  | none => .error (.keyError key)
  | some v =>
      match pyFloat v with
      | none => .error (.typeError key)
      | some q => .ok ⟨storagePath, .pfloat q, "float", title⟩

/-- `BaseBCT.build_int_value_wrapper` (source lines 121-126): stores
`int(result[key])` with declared type `'int'`. -/
def build_int_value_wrapper (storagePath : String) (result : Dict) (key : String)
    (title : String) : Except BctError ValueWrapper :=
  match dictLookup result key with
  | none => .error (.keyError key)
  | some v =>
      match pyInt v with
      | none => .error (.typeError key)
      | some z => .ok ⟨storagePath, .pint z, "int", title⟩

/-- The value of one `launch` call: the recorded engine interactions, the
connectivity object as it stands when the call returns (threaded through the
body so that frame claims are statements about the embedding), and the result
list (or the exception that escaped). -/
structure LaunchResult where
  actions : List EngineAction
  connectivity : Connectivity
  outputs : Except BctError (List Output)

/-- The output kind sequence of a successful launch. -/
def launchKinds (r : LaunchResult) : Option (List OutputKind) :=
  match r.outputs with
  | .error _ => none
  | .ok l => some (l.map Output.kind)

/-! ### Variant metadata (class attributes of the adapter classes) -/

def ModularityOCSM.ui_name : String := "Optimal Community Structure and Modularity"
def ModularityOCSM.matlab_code : String := "[Ci,Q] = modularity_dir(CW);"
def ModularityOCSM.ui_connectivity_label : String :=
  "Directed (weighted or binary) connection matrix:"

def ModularityOpCSMU.ui_name : String :=
  "Optimal Community Structure and Modularity (Undirected)"
def ModularityOpCSMU.matlab_code : String := "[Ci,Q] = modularity_und(CW);"

def DistanceDBIN.ui_name : String := "Distance binary matrix"
def DistanceDBIN.matlab_code : String := "D = distance_bin(A);"

def DistanceDWEI.ui_name : String := "Distance weighted matrix"
def DistanceDWEI.matlab_code : String := "D = distance_wei(A);"
def DistanceDWEI.ui_connectivity_label : String :=
  "Weighted (directed/undirected) connection matrix:"

def DistanceRDM.ui_name : String :=
  "Reachability and distance matrices (Breadth-first search)"
def DistanceRDM.matlab_code : String := "[R,D] = breadthdist(A);"

def DistanceRDA.ui_name : String :=
  "Reachability and distance matrices (Algebraic path count)"
def DistanceRDA.matlab_code : String := "[R,D] = reachdist(A);"

def DistanceNETW.ui_name : String := "Network walks"
def DistanceNETW.matlab_code : String := "[Wq,twalk,wlq]  = findwalks(A);"

/-! ### Launch bodies

Each concrete `launch` method's body, with `self._matlab_code` passed
explicitly (Python resolves it by dynamic dispatch, so a subclass that only
overrides `_matlab_code` reuses the parent body with its own snippet).
Sequencing of the builder calls follows the source statement order, so the
first raising builder determines the escaping exception. -/

/-- Body of `ModularityOCSM.launch` (source lines 161-169), shared with
`ModularityOpCSMU` which overrides only metadata. -/
def modularityLaunch (matlabCode : String) (bctPath storagePath : String)
    (engine : Engine) (connectivity : Connectivity) (kwargs : Dict) : LaunchResult :=
  let kwargs1 := dictInsert kwargs "CW" (.arr connectivity.weights)
  let step := execute_matlab bctPath engine matlabCode kwargs1
  let outs : Except BctError (List Output) :=
    match build_connectivity_measure storagePath step.2 "Ci" connectivity
        "Optimal Community Structure" "" "" with
    | .error e => .error e
    | .ok measure =>
        match build_float_value_wrapper storagePath step.2 "Q" "Maximized Modularity" with
        | .error e => .error e
        | .ok value => .ok [.measure measure, .value value]
  ⟨step.1, connectivity, outs⟩

def ModularityOCSM.launch (bctPath storagePath : String) (engine : Engine)
    (connectivity : Connectivity) (kwargs : Dict) : LaunchResult :=
  modularityLaunch ModularityOCSM.matlab_code bctPath storagePath engine connectivity kwargs

def ModularityOpCSMU.launch (bctPath storagePath : String) (engine : Engine)
    (connectivity : Connectivity) (kwargs : Dict) : LaunchResult :=
  modularityLaunch ModularityOpCSMU.matlab_code bctPath storagePath engine connectivity kwargs

/-- Body of `DistanceDBIN.launch` (source lines 190-194), shared with
`DistanceDWEI` which overrides only metadata. -/
def distanceLaunch (matlabCode : String) (bctPath storagePath : String)
    (engine : Engine) (connectivity : Connectivity) (kwargs : Dict) : LaunchResult :=
  let kwargs1 := dictInsert kwargs "A" (.arr connectivity.weights)
  let step := execute_matlab bctPath engine matlabCode kwargs1
  let outs : Except BctError (List Output) :=
    match build_connectivity_measure storagePath step.2 "D" connectivity
        "Distance matrix" "" "" with
    | .error e => .error e
    | .ok measure => .ok [.measure measure]
  ⟨step.1, connectivity, outs⟩

def DistanceDBIN.launch (bctPath storagePath : String) (engine : Engine)
    (connectivity : Connectivity) (kwargs : Dict) : LaunchResult :=
  distanceLaunch DistanceDBIN.matlab_code bctPath storagePath engine connectivity kwargs

def DistanceDWEI.launch (bctPath storagePath : String) (engine : Engine)
    (connectivity : Connectivity) (kwargs : Dict) : LaunchResult :=
  distanceLaunch DistanceDWEI.matlab_code bctPath storagePath engine connectivity kwargs

/-- Body of `DistanceRDM.launch` (source lines 214-220), shared with
`DistanceRDA` which overrides only metadata. -/
def reachLaunch (matlabCode : String) (bctPath storagePath : String)
    (engine : Engine) (connectivity : Connectivity) (kwargs : Dict) : LaunchResult :=
  let kwargs1 := dictInsert kwargs "A" (.arr connectivity.weights)
  let step := execute_matlab bctPath engine matlabCode kwargs1
  let outs : Except BctError (List Output) :=
    match build_connectivity_measure storagePath step.2 "R" connectivity
        "Reachability matrix" "" "" with
    | .error e => .error e
    | .ok measure1 =>
        match build_connectivity_measure storagePath step.2 "D" connectivity
            "Distance matrix" "" "" with
        | .error e => .error e
        | .ok measure2 => .ok [.measure measure1, .measure measure2]
  ⟨step.1, connectivity, outs⟩

def DistanceRDM.launch (bctPath storagePath : String) (engine : Engine)
    (connectivity : Connectivity) (kwargs : Dict) : LaunchResult :=
  reachLaunch DistanceRDM.matlab_code bctPath storagePath engine connectivity kwargs

def DistanceRDA.launch (bctPath storagePath : String) (engine : Engine)
    (connectivity : Connectivity) (kwargs : Dict) : LaunchResult :=
  reachLaunch DistanceRDA.matlab_code bctPath storagePath engine connectivity kwargs

/-- Body of `DistanceNETW.launch` (source lines 239-246): builds the `Wq` and
`wlq` measures and the `twalk` float wrapper, in that statement order, and
returns `[measure1, value, measure2]`. -/
def walksLaunch (matlabCode : String) (bctPath storagePath : String)
    (engine : Engine) (connectivity : Connectivity) (kwargs : Dict) : LaunchResult :=
  let kwargs1 := dictInsert kwargs "A" (.arr connectivity.weights)
  let step := execute_matlab bctPath engine matlabCode kwargs1
  let outs : Except BctError (List Output) :=
    match build_connectivity_measure storagePath step.2 "Wq" connectivity
        "3D matrix" "" "" with
    | .error e => .error e
    | .ok measure1 =>
        match build_connectivity_measure storagePath step.2 "wlq" connectivity
            "Walk length distribution" "" "" with
        | .error e => .error e
        | .ok measure2 =>
            match build_float_value_wrapper storagePath step.2 "twalk"
                "Total number of walks found" with
            | .error e => .error e
            | .ok value => .ok [.measure measure1, .value value, .measure measure2]
  ⟨step.1, connectivity, outs⟩

def DistanceNETW.launch (bctPath storagePath : String) (engine : Engine)
    (connectivity : Connectivity) (kwargs : Dict) : LaunchResult :=
  walksLaunch DistanceNETW.matlab_code bctPath storagePath engine connectivity kwargs

/-! ### Input schemas -/

/-- A filter condition attached to an input field
(`FilterChain(fields, operations, values)`). -/
structure FilterCondition where
  fields : List String
  operations : List String
  values : List String
  deriving DecidableEq

/-- One entry of an input tree (the dict built by `get_input_tree`). -/
structure InputField where
  name : String
  label : String
  typeName : String
  required : Bool
  conditions : Option FilterCondition
  deriving DecidableEq

/-- Modelled from the spec: `FilterChain.datatype` (from
`tvb.basic.filters.chain`, not under `src/`) is the prefix denoting the
filtered datatype, so `FilterChain.datatype + '._undirected'` names the
input's `_undirected` field. -/
def filterChainDatatype : String := "datatype"

/-- `BaseBCT.get_input_tree` (source lines 76-77): one required connectivity
field with the class's `_ui_connectivity_label` and no filter condition. -/
def base_get_input_tree (uiConnectivityLabel : String) : List InputField :=
  [⟨"connectivity", uiConnectivityLabel, "Connectivity", true, none⟩]

/-- `BaseUndirected.get_input_tree` (source lines 139-142): same field, with
condition `datatype._undirected == '1'`. -/
def baseUndirected_get_input_tree (uiConnectivityLabel : String) : List InputField :=
  [⟨"connectivity", uiConnectivityLabel, "Connectivity", true,
    some ⟨[filterChainDatatype ++ "._undirected"], ["=="], ["1"]⟩⟩]

/-- Reading a filter field off a connectivity: its `_undirected` flag is
stored as the string `'1'` or `'0'`. -/
def connAttr (conn : Connectivity) (field : String) : Option String :=
  if field = filterChainDatatype ++ "._undirected" then
    some (if conn.undirected then "1" else "0")
  else none

/-- Modelled from the spec: evaluation of a `FilterChain` condition (the
chain class is not under `src/`) — each (field, operation, value) triple is
checked against the datatype, `==` meaning string equality, and the filter
passes when every triple does. -/
def evalFilterCondition (c : FilterCondition) (conn : Connectivity) : Bool :=
  (c.fields.zip (c.operations.zip c.values)).all fun t =>
    match connAttr conn t.1, t.2.1 with
    | some a, "==" => a = t.2.2
    | _, _ => false

/-- Schema-level acceptance: every field's condition (when present) passes. -/
def schemaAccepts (tree : List InputField) (conn : Connectivity) : Bool :=
  tree.all fun fld =>
    match fld.conditions with
    | none => true
    | some c => evalFilterCondition c conn

/-- `ModularityOCSM` does not override `get_input_tree`; it inherits
`BaseBCT.get_input_tree` with its own `_ui_connectivity_label`. -/
def ModularityOCSM.get_input_tree : List InputField :=
  base_get_input_tree ModularityOCSM.ui_connectivity_label

/-- `ModularityOpCSMU` extends `ModularityOCSM` (not `BaseUndirected`), so it
inherits both `BaseBCT.get_input_tree` and `ModularityOCSM`'s label. -/
def ModularityOpCSMU.get_input_tree : List InputField :=
  base_get_input_tree ModularityOCSM.ui_connectivity_label

/-- `BaseBCT._ui_connectivity_label`, inherited by the distance variants that
do not override it. -/
def BaseBCT.ui_connectivity_label : String := "Connection matrix:"

def DistanceDBIN.get_input_tree : List InputField :=
  base_get_input_tree BaseBCT.ui_connectivity_label

def DistanceDWEI.get_input_tree : List InputField :=
  base_get_input_tree DistanceDWEI.ui_connectivity_label

def DistanceRDM.get_input_tree : List InputField :=
  base_get_input_tree BaseBCT.ui_connectivity_label

def DistanceRDA.get_input_tree : List InputField :=
  base_get_input_tree BaseBCT.ui_connectivity_label

def DistanceNETW.get_input_tree : List InputField :=
  base_get_input_tree BaseBCT.ui_connectivity_label

/-! ### Availability -/

/-- Python truthiness of an optional string: `None` and `''` are falsy. -/
def pyTruthyStr : Option String → Bool
  | none => false
  | some s => !s.isEmpty

/-- `BaseBCT.can_be_active` (source lines 71-73):
`not not TvbProfile.current.MATLAB_EXECUTABLE` — the double negation of the
configured executable path's truthiness. -/
def can_be_active (matlabExecutable : Option String) : Bool :=
  !(!(pyTruthyStr matlabExecutable))

/-! ### Helper lemmas -/

theorem dictLookup_dictInsert_self (d : Dict) (k : String) (v : MatVal) :
    dictLookup (dictInsert d k v) k = some v := by
  induction d with
  | nil => simp [dictInsert, dictLookup]
  | cons hd tl ih =>
      obtain ⟨k0, v0⟩ := hd
      by_cases hk : k0 = k
      · simp [dictInsert, dictLookup, hk]
      · simp [dictInsert, dictLookup, hk, ih]

/-! ### Claims -/

/-- Claim C8: `can_be_active` is true exactly when the configured MATLAB
executable path is a non-empty string, and false when it is unset (`None`) or
empty; it is a function of the path string alone, so it checks nothing beyond
non-emptiness (in particular not whether the engine can be launched). -/
theorem can_be_active_spec (p : Option String) :
    (can_be_active p = true ↔ ∃ s : String, p = some s ∧ s ≠ "") ∧
    can_be_active none = false ∧ can_be_active (some "") = false := by
  refine ⟨⟨?_, ?_⟩, rfl, by decide⟩
  · intro h
    cases p with
    | none => simp [can_be_active, pyTruthyStr] at h
    | some s =>
        refine ⟨s, rfl, fun hs => ?_⟩
        rw [hs] at h
        exact absurd h (by decide)
  · rintro ⟨s, rfl, hs⟩
    have : ¬ s.isEmpty := fun h => hs ((String.isEmpty_iff s).mp h)
    simp [can_be_active, pyTruthyStr, this]

/-- Claim C5: whenever `key` is bound in the engine's result mapping,
`build_connectivity_measure` succeeds and the measure's array payload is
exactly the value stored under `key` — an identity round-trip with no
transformation applied. -/
theorem build_connectivity_measure_roundtrip (sp : String) (res : Dict) (key : String)
    (conn : Connectivity) (title lx ly : String) (v : MatVal)
    (h : dictLookup res key = some v) :
    ∃ m : ConnectivityMeasure,
      build_connectivity_measure sp res key conn title lx ly = .ok m ∧
      m.array_data = v := by
  refine ⟨⟨sp, v, conn, title, lx, ly⟩, ?_, rfl⟩
  simp [build_connectivity_measure, h]

theorem build_connectivity_measure_roundtrip_witness :
    dictLookup [("D", MatVal.num 3)] "D" = some (MatVal.num 3) ∧
    ∃ m : ConnectivityMeasure,
      build_connectivity_measure "s" [("D", MatVal.num 3)] "D"
        ⟨[[1]], true⟩ "t" "" "" = .ok m ∧
      m.array_data = MatVal.num 3 :=
  ⟨by decide,
    build_connectivity_measure_roundtrip "s" [("D", MatVal.num 3)] "D"
      ⟨[[1]], true⟩ "t" "" "" (MatVal.num 3) (by decide)⟩

/-- Claim C7: when `key` is bound in the result mapping and the stored value
converts, the float wrapper holds exactly `float(results[key])` with declared
type `'float'`, and the int wrapper holds exactly `int(results[key])` with
declared type `'int'`. -/
theorem scalar_wrapper_value_spec (sp : String) (res : Dict) (key title : String)
    (v : MatVal) (q : ℚ) (z : ℤ)
    (h : dictLookup res key = some v)
    (hq : pyFloat v = some q) (hz : pyInt v = some z) :
    build_float_value_wrapper sp res key title =
      .ok ⟨sp, .pfloat q, "float", title⟩ ∧
    build_int_value_wrapper sp res key title =
      .ok ⟨sp, .pint z, "int", title⟩ := by
  constructor
  · simp [build_float_value_wrapper, h, hq]
  · simp [build_int_value_wrapper, h, hz]

theorem scalar_wrapper_value_spec_witness :
    dictLookup [("Q", MatVal.num 5)] "Q" = some (MatVal.num 5) ∧
    pyFloat (MatVal.num 5) = some 5 ∧
    pyInt (MatVal.num 5) = some 5 ∧
    (build_float_value_wrapper "s" [("Q", MatVal.num 5)] "Q" "t" =
        .ok ⟨"s", .pfloat 5, "float", "t"⟩ ∧
      build_int_value_wrapper "s" [("Q", MatVal.num 5)] "Q" "t" =
        .ok ⟨"s", .pint 5, "int", "t"⟩) :=
  ⟨by decide, by decide, by decide,
    scalar_wrapper_value_spec "s" [("Q", MatVal.num 5)] "Q" "t"
      (MatVal.num 5) 5 5 (by decide) (by decide) (by decide)⟩

/-- Claim C6 counterexample: the key `'Q'` is present in the result mapping,
yet `build_float_value_wrapper` fails — `float()` of a multi-element array
raises `TypeError` — so key presence alone does not guarantee success. -/
theorem build_float_value_wrapper_fails_on_present_key :
    dictLookup [("Q", MatVal.arr [[1], [2]])] "Q" =
      some (MatVal.arr [[1], [2]]) ∧
    build_float_value_wrapper "s" [("Q", MatVal.arr [[1], [2]])] "Q" "t" =
      .error (.typeError "Q") :=
  ⟨by decide, rfl⟩

/-- Claim C6 (amended): each builder fails loudly exactly when its
precondition is violated — `build_connectivity_measure` succeeds iff the key
is bound; the scalar builders succeed iff the key is bound to a value
convertible to the requested numeric type (a missing key raises `KeyError`, a
present but non-convertible value raises `TypeError`). -/
theorem builders_success_iff_spec (sp : String) (res : Dict) (key : String)
    (conn : Connectivity) (title lx ly : String) :
    ((∃ m, build_connectivity_measure sp res key conn title lx ly = .ok m) ↔
      (∃ v, dictLookup res key = some v)) ∧
    ((∃ w, build_float_value_wrapper sp res key title = .ok w) ↔
      (∃ v, dictLookup res key = some v ∧ (pyFloat v).isSome)) ∧
    ((∃ w, build_int_value_wrapper sp res key title = .ok w) ↔
      (∃ v, dictLookup res key = some v ∧ (pyInt v).isSome)) := by
  refine ⟨⟨?_, ?_⟩, ⟨?_, ?_⟩, ⟨?_, ?_⟩⟩
  · rintro ⟨m, hm⟩
    rcases hv : dictLookup res key with _ | v
    · simp [build_connectivity_measure, hv] at hm
    · exact ⟨v, rfl⟩
  · rintro ⟨v, hv⟩
    exact ⟨⟨sp, v, conn, title, lx, ly⟩, by simp [build_connectivity_measure, hv]⟩
  · rintro ⟨w, hw⟩
    rcases hv : dictLookup res key with _ | v
    · simp [build_float_value_wrapper, hv] at hw
    · rcases hf : pyFloat v with _ | q
      · simp [build_float_value_wrapper, hv, hf] at hw
      · exact ⟨v, rfl, by simp [hf]⟩
  · rintro ⟨v, hv, hf⟩
    rcases Option.isSome_iff_exists.mp hf with ⟨q, hq⟩
    exact ⟨⟨sp, .pfloat q, "float", title⟩, by simp [build_float_value_wrapper, hv, hq]⟩
  · rintro ⟨w, hw⟩
    rcases hv : dictLookup res key with _ | v
    · simp [build_int_value_wrapper, hv] at hw
    · rcases hf : pyInt v with _ | z
      · simp [build_int_value_wrapper, hv, hf] at hw
      · exact ⟨v, rfl, by simp [hf]⟩
  · rintro ⟨v, hv, hf⟩
    rcases Option.isSome_iff_exists.mp hf with ⟨z, hz⟩
    exact ⟨⟨sp, .pint z, "int", title⟩, by simp [build_int_value_wrapper, hv, hz]⟩

/-- Claim C1: `ModularityOCSM.launch` sends the engine exactly one run of the
snippet `[Ci,Q] = modularity_dir(CW);` with `CW` bound to the connectivity's
weight matrix, and for a result mapping binding `Ci` and `Q` (with `Q`
convertible to float) returns exactly the two-element list: the `Ci` measure
titled "Optimal Community Structure", then the float wrapper of `Q` titled
"Maximized Modularity". -/
theorem modularityOCSM_launch_spec (bp sp : String) (res : Dict)
    (conn : Connectivity) (kwargs : Dict) (vCi vQ : MatVal) (q : ℚ)
    (hCi : dictLookup res "Ci" = some vCi)
    (hQ : dictLookup res "Q" = some vQ)
    (hq : pyFloat vQ = some q) :
    ModularityOCSM.launch bp sp (constEngine res) conn kwargs =
      ⟨[.addToPath bp,
        .run ⟨"[Ci,Q] = modularity_dir(CW);", dictInsert kwargs "CW" (.arr conn.weights)⟩],
        conn,
        .ok [.measure ⟨sp, vCi, conn, "Optimal Community Structure", "", ""⟩,
          .value ⟨sp, .pfloat q, "float", "Maximized Modularity"⟩]⟩ ∧
    dictLookup (dictInsert kwargs "CW" (.arr conn.weights)) "CW" =
      some (.arr conn.weights) := by
  constructor
  · simp [ModularityOCSM.launch, modularityLaunch, ModularityOCSM.matlab_code,
      execute_matlab, matlabWorkerMatlab, constEngine,
      build_connectivity_measure, build_float_value_wrapper, hCi, hQ, hq]
  · exact dictLookup_dictInsert_self kwargs "CW" (.arr conn.weights)

theorem modularityOCSM_launch_spec_witness :
    dictLookup [("Ci", MatVal.arr [[1, 1, 2]]), ("Q", MatVal.num 42)] "Ci" =
      some (MatVal.arr [[1, 1, 2]]) ∧
    dictLookup [("Ci", MatVal.arr [[1, 1, 2]]), ("Q", MatVal.num 42)] "Q" =
      some (MatVal.num 42) ∧
    pyFloat (MatVal.num 42) = some 42 ∧
    (ModularityOCSM.launch "bct" "sp"
        (constEngine [("Ci", MatVal.arr [[1, 1, 2]]), ("Q", MatVal.num 42)])
        ⟨[[0, 1], [1, 0]], true⟩ [] =
      ⟨[.addToPath "bct",
        .run ⟨"[Ci,Q] = modularity_dir(CW);",
          dictInsert [] "CW" (.arr [[0, 1], [1, 0]])⟩],
        ⟨[[0, 1], [1, 0]], true⟩,
        .ok [.measure ⟨"sp", MatVal.arr [[1, 1, 2]], ⟨[[0, 1], [1, 0]], true⟩,
            "Optimal Community Structure", "", ""⟩,
          .value ⟨"sp", .pfloat 42, "float", "Maximized Modularity"⟩]⟩ ∧
      dictLookup (dictInsert [] "CW" (.arr [[0, 1], [1, 0]])) "CW" =
        some (.arr [[0, 1], [1, 0]])) :=
  ⟨by decide, by decide, by decide,
    modularityOCSM_launch_spec "bct" "sp"
      [("Ci", MatVal.arr [[1, 1, 2]]), ("Q", MatVal.num 42)]
      ⟨[[0, 1], [1, 0]], true⟩ [] (MatVal.arr [[1, 1, 2]]) (MatVal.num 42) 42
      (by decide) (by decide) (by decide)⟩

/-- Claim C2 counterexample: the undirected modularity variant
`ModularityOpCSMU` extends `ModularityOCSM` (not `BaseUndirected`), so its
declared input schema has no filter condition and accepts a connectivity
whose undirected flag is false. -/
theorem modularityOpCSMU_schema_accepts_directed :
    (Connectivity.mk [[0, 1], [0, 0]] false).undirected = false ∧
    schemaAccepts ModularityOpCSMU.get_input_tree
      (Connectivity.mk [[0, 1], [0, 0]] false) = true :=
  ⟨rfl, rfl⟩

/-- Claim C2 (amended): the schema declared by `BaseUndirected.get_input_tree`
accepts a connectivity exactly when its undirected flag is set (condition
`datatype._undirected == '1'`), while every concrete variant of this module —
including the undirected modularity variant `ModularityOpCSMU`, whose input
tree is the unconditioned one it inherits through `ModularityOCSM` — declares
no condition and accepts both directed and undirected inputs. -/
theorem input_tree_filter_spec (lbl : String) (conn : Connectivity) :
    schemaAccepts (baseUndirected_get_input_tree lbl) conn = conn.undirected ∧
    schemaAccepts ModularityOCSM.get_input_tree conn = true ∧
    schemaAccepts ModularityOpCSMU.get_input_tree conn = true ∧
    schemaAccepts DistanceDBIN.get_input_tree conn = true ∧
    schemaAccepts DistanceDWEI.get_input_tree conn = true ∧
    schemaAccepts DistanceRDM.get_input_tree conn = true ∧
    schemaAccepts DistanceRDA.get_input_tree conn = true ∧
    schemaAccepts DistanceNETW.get_input_tree conn = true ∧
    ModularityOpCSMU.get_input_tree = ModularityOCSM.get_input_tree := by
  obtain ⟨w, u⟩ := conn
  exact ⟨by cases u <;> rfl, rfl, rfl, rfl, rfl, rfl, rfl, rfl, rfl⟩

/-- Claim C3 counterexample: an engine reply with failure status 1 and an
error log produces, through `execute_matlab`, exactly the value produced by a
success reply carrying the same result mapping — the bridge returns the
result mapping and proceeds as if the run succeeded, surfacing neither the
status nor the log to the caller. -/
theorem execute_matlab_ignores_failure_status :
    (EngineReply.mk 1 "MATLAB error" [("Ci", MatVal.num 1)]).runcode ≠ 0 ∧
    execute_matlab "bct" (fun _ => ⟨1, "MATLAB error", [("Ci", MatVal.num 1)]⟩)
        "[Ci,Q] = modularity_dir(CW);" [] =
      execute_matlab "bct" (fun _ => ⟨0, "", [("Ci", MatVal.num 1)]⟩)
        "[Ci,Q] = modularity_dir(CW);" [] :=
  ⟨by decide, rfl⟩

/-- Claim C3 (amended): `execute_matlab` invokes the worker exactly once (one
run action in the trace — no retry, no recovery) and returns the reply's
result mapping unchanged; the status code and log are only written to the
adapter's debug log, so two engines whose replies share the result mapping
are indistinguishable to the caller. -/
theorem execute_matlab_bridge_spec (bp code : String) (kwargs : Dict)
    (r1 r2 : EngineReply) (h : r1.result = r2.result) :
    execute_matlab bp (fun _ => r1) code kwargs =
      ([.addToPath bp, .run ⟨code, kwargs⟩], r1.result) ∧
    execute_matlab bp (fun _ => r1) code kwargs =
      execute_matlab bp (fun _ => r2) code kwargs := by
  refine ⟨rfl, ?_⟩
  simp [execute_matlab, matlabWorkerMatlab, h]

theorem execute_matlab_bridge_spec_witness :
    (EngineReply.mk 1 "err" [("D", MatVal.num 2)]).result =
      (EngineReply.mk 0 "" [("D", MatVal.num 2)]).result ∧
    (execute_matlab "p" (fun _ => ⟨1, "err", [("D", MatVal.num 2)]⟩) "c" [] =
        ([.addToPath "p", .run ⟨"c", []⟩], [("D", MatVal.num 2)]) ∧
      execute_matlab "p" (fun _ => ⟨1, "err", [("D", MatVal.num 2)]⟩) "c" [] =
        execute_matlab "p" (fun _ => ⟨0, "", [("D", MatVal.num 2)]⟩) "c" []) :=
  ⟨rfl, execute_matlab_bridge_spec "p" "c" []
    ⟨1, "err", [("D", MatVal.num 2)]⟩ ⟨0, "", [("D", MatVal.num 2)]⟩ rfl⟩

/-- Claim C4: for every variant, when the result mapping binds every key the
variant reads (the scalar keys to convertible values), `launch` returns a
non-empty list with the variant's fixed kind sequence — in particular the
walk-statistics variant `DistanceNETW` returns [measure, scalar, measure]. -/
theorem launch_output_shape_spec (bp sp : String) (res : Dict)
    (conn : Connectivity) (kwargs : Dict)
    (vCi vQ vD vR vWq vwlq vt : MatVal) (q qt : ℚ)
    (hCi : dictLookup res "Ci" = some vCi)
    (hQ : dictLookup res "Q" = some vQ) (hq : pyFloat vQ = some q)
    (hD : dictLookup res "D" = some vD)
    (hR : dictLookup res "R" = some vR)
    (hWq : dictLookup res "Wq" = some vWq)
    (hwlq : dictLookup res "wlq" = some vwlq)
    (ht : dictLookup res "twalk" = some vt) (hqt : pyFloat vt = some qt) :
    launchKinds (ModularityOCSM.launch bp sp (constEngine res) conn kwargs) =
      some [.measure, .scalar] ∧
    launchKinds (ModularityOpCSMU.launch bp sp (constEngine res) conn kwargs) =
      some [.measure, .scalar] ∧
    launchKinds (DistanceDBIN.launch bp sp (constEngine res) conn kwargs) =
      some [.measure] ∧
    launchKinds (DistanceDWEI.launch bp sp (constEngine res) conn kwargs) =
      some [.measure] ∧
    launchKinds (DistanceRDM.launch bp sp (constEngine res) conn kwargs) =
      some [.measure, .measure] ∧
    launchKinds (DistanceRDA.launch bp sp (constEngine res) conn kwargs) =
      some [.measure, .measure] ∧
    launchKinds (DistanceNETW.launch bp sp (constEngine res) conn kwargs) =
      some [.measure, .scalar, .measure] := by
  refine ⟨?_, ?_, ?_, ?_, ?_, ?_, ?_⟩ <;>
    simp [ModularityOCSM.launch, ModularityOpCSMU.launch, DistanceDBIN.launch,
      DistanceDWEI.launch, DistanceRDM.launch, DistanceRDA.launch,
      DistanceNETW.launch, modularityLaunch, distanceLaunch, reachLaunch,
      walksLaunch, execute_matlab, matlabWorkerMatlab, constEngine,
      build_connectivity_measure, build_float_value_wrapper, launchKinds,
      Output.kind, hCi, hQ, hq, hD, hR, hWq, hwlq, ht, hqt]

theorem launch_output_shape_spec_witness :
    dictLookup [("Ci", MatVal.num 1), ("Q", MatVal.num 2), ("D", MatVal.num 3),
        ("R", MatVal.num 4), ("Wq", MatVal.num 5), ("wlq", MatVal.num 6),
        ("twalk", MatVal.num 7)] "Ci" = some (MatVal.num 1) ∧
    pyFloat (MatVal.num 2) = some 2 ∧
    pyFloat (MatVal.num 7) = some 7 ∧
    (launchKinds (ModularityOCSM.launch "b" "s"
        (constEngine [("Ci", MatVal.num 1), ("Q", MatVal.num 2), ("D", MatVal.num 3),
          ("R", MatVal.num 4), ("Wq", MatVal.num 5), ("wlq", MatVal.num 6),
          ("twalk", MatVal.num 7)]) ⟨[[1]], true⟩ []) = some [.measure, .scalar] ∧
      launchKinds (ModularityOpCSMU.launch "b" "s"
        (constEngine [("Ci", MatVal.num 1), ("Q", MatVal.num 2), ("D", MatVal.num 3),
          ("R", MatVal.num 4), ("Wq", MatVal.num 5), ("wlq", MatVal.num 6),
          ("twalk", MatVal.num 7)]) ⟨[[1]], true⟩ []) = some [.measure, .scalar] ∧
      launchKinds (DistanceDBIN.launch "b" "s"
        (constEngine [("Ci", MatVal.num 1), ("Q", MatVal.num 2), ("D", MatVal.num 3),
          ("R", MatVal.num 4), ("Wq", MatVal.num 5), ("wlq", MatVal.num 6),
          ("twalk", MatVal.num 7)]) ⟨[[1]], true⟩ []) = some [.measure] ∧
      launchKinds (DistanceDWEI.launch "b" "s"
        (constEngine [("Ci", MatVal.num 1), ("Q", MatVal.num 2), ("D", MatVal.num 3),
          ("R", MatVal.num 4), ("Wq", MatVal.num 5), ("wlq", MatVal.num 6),
          ("twalk", MatVal.num 7)]) ⟨[[1]], true⟩ []) = some [.measure] ∧
      launchKinds (DistanceRDM.launch "b" "s"
        (constEngine [("Ci", MatVal.num 1), ("Q", MatVal.num 2), ("D", MatVal.num 3),
          ("R", MatVal.num 4), ("Wq", MatVal.num 5), ("wlq", MatVal.num 6),
          ("twalk", MatVal.num 7)]) ⟨[[1]], true⟩ []) = some [.measure, .measure] ∧
      launchKinds (DistanceRDA.launch "b" "s"
        (constEngine [("Ci", MatVal.num 1), ("Q", MatVal.num 2), ("D", MatVal.num 3),
          ("R", MatVal.num 4), ("Wq", MatVal.num 5), ("wlq", MatVal.num 6),
          ("twalk", MatVal.num 7)]) ⟨[[1]], true⟩ []) = some [.measure, .measure] ∧
      launchKinds (DistanceNETW.launch "b" "s"
        (constEngine [("Ci", MatVal.num 1), ("Q", MatVal.num 2), ("D", MatVal.num 3),
          ("R", MatVal.num 4), ("Wq", MatVal.num 5), ("wlq", MatVal.num 6),
          ("twalk", MatVal.num 7)]) ⟨[[1]], true⟩ []) =
        some [.measure, .scalar, .measure]) :=
  ⟨by decide, by decide, by decide,
    launch_output_shape_spec "b" "s"
      [("Ci", MatVal.num 1), ("Q", MatVal.num 2), ("D", MatVal.num 3),
        ("R", MatVal.num 4), ("Wq", MatVal.num 5), ("wlq", MatVal.num 6),
        ("twalk", MatVal.num 7)] ⟨[[1]], true⟩ []
      (MatVal.num 1) (MatVal.num 2) (MatVal.num 3) (MatVal.num 4) (MatVal.num 5)
      (MatVal.num 6) (MatVal.num 7) 2 7
      (by decide) (by decide) (by decide) (by decide) (by decide) (by decide)
      (by decide) (by decide) (by decide)⟩

/-- Claim C9: every variant's `launch` leaves the supplied connectivity
unchanged — the connectivity threaded through the embedded body (which, like
the source, contains no assignment to any connectivity field) is returned
exactly as it was passed in, for every engine, input and extra parameters. -/
theorem launch_preserves_connectivity (bp sp : String) (engine : Engine)
    (conn : Connectivity) (kwargs : Dict) :
    (ModularityOCSM.launch bp sp engine conn kwargs).connectivity = conn ∧
    (ModularityOpCSMU.launch bp sp engine conn kwargs).connectivity = conn ∧
    (DistanceDBIN.launch bp sp engine conn kwargs).connectivity = conn ∧
    (DistanceDWEI.launch bp sp engine conn kwargs).connectivity = conn ∧
    (DistanceRDM.launch bp sp engine conn kwargs).connectivity = conn ∧
    (DistanceRDA.launch bp sp engine conn kwargs).connectivity = conn ∧
    (DistanceNETW.launch bp sp engine conn kwargs).connectivity = conn :=
  ⟨rfl, rfl, rfl, rfl, rfl, rfl, rfl⟩

/-- Claim C10: a subclass that overrides only metadata behaves exactly like
its parent up to the snippet string — for every connectivity, extra
parameters and engine reply, `ModularityOpCSMU` and `ModularityOCSM` (and
likewise `DistanceDWEI` and `DistanceDBIN`) produce identical parameter
bindings, identical outputs (same list structure and titles), and traces that
differ only in the literal snippet sent. -/
theorem subclass_variant_equivalence (bp sp : String) (r : EngineReply)
    (conn : Connectivity) (kwargs : Dict) :
    (ModularityOpCSMU.launch bp sp (fun _ => r) conn kwargs).outputs =
      (ModularityOCSM.launch bp sp (fun _ => r) conn kwargs).outputs ∧
    (ModularityOpCSMU.launch bp sp (fun _ => r) conn kwargs).connectivity =
      (ModularityOCSM.launch bp sp (fun _ => r) conn kwargs).connectivity ∧
    (ModularityOpCSMU.launch bp sp (fun _ => r) conn kwargs).actions =
      [.addToPath bp, .run ⟨ModularityOpCSMU.matlab_code,
        dictInsert kwargs "CW" (.arr conn.weights)⟩] ∧
    (ModularityOCSM.launch bp sp (fun _ => r) conn kwargs).actions =
      [.addToPath bp, .run ⟨ModularityOCSM.matlab_code,
        dictInsert kwargs "CW" (.arr conn.weights)⟩] ∧
    ModularityOpCSMU.matlab_code ≠ ModularityOCSM.matlab_code ∧
    (DistanceDWEI.launch bp sp (fun _ => r) conn kwargs).outputs =
      (DistanceDBIN.launch bp sp (fun _ => r) conn kwargs).outputs ∧
    (DistanceDWEI.launch bp sp (fun _ => r) conn kwargs).connectivity =
      (DistanceDBIN.launch bp sp (fun _ => r) conn kwargs).connectivity ∧
    (DistanceDWEI.launch bp sp (fun _ => r) conn kwargs).actions =
      [.addToPath bp, .run ⟨DistanceDWEI.matlab_code,
        dictInsert kwargs "A" (.arr conn.weights)⟩] ∧
    (DistanceDBIN.launch bp sp (fun _ => r) conn kwargs).actions =
      [.addToPath bp, .run ⟨DistanceDBIN.matlab_code,
        dictInsert kwargs "A" (.arr conn.weights)⟩] ∧
    DistanceDWEI.matlab_code ≠ DistanceDBIN.matlab_code :=
  ⟨rfl, rfl, rfl, rfl, by decide, rfl, rfl, rfl, rfl, by decide⟩

end Bct
